import Mathlib

/-!
Verification of the wok CRI runtime against its specification.

Shallow embedding of the relevant parts of the source:
* `src/docker/reference.rs` — image reference parsing,
* `src/store/mod.rs` — the module store (catalog of pulled wasm modules),
* `src/server/image.rs` — the image service (`pull_image`),
* `src/server/runtime.rs` — the runtime service (sandboxes, containers,
  the running-set of cancellation tokens).

Rust strings are modelled as `List Char` where byte indices matter
(`str::find` returns the byte index of the first occurrence; slicing at the
index of an ASCII character yields the same character sequences as slicing
the char list, so the char model is faithful for the reference grammar).
Maps (`HashMap`, `BTreeMap`) are modelled as association lists with unique
keys reached through the insert/update/erase operations defined here.
Foreign and filesystem effects (`create_dir_all`, the OCI `Pull` primitive,
`fs::metadata`, `CString::new`) are modelled by an explicit environment
record carrying each call's outcome.  A Rust panic (`unwrap`, `expect`,
`todo!`) is modelled as the `none` case of an `Option` result.
-/

namespace Wok

/-! ## Reference parsing (src/docker/reference.rs) -/

/-- `str::find(c)`: index of the first occurrence of `c`, if any. -/
def strFind (c : Char) : List Char → Option Nat
  | [] => none
  | x :: xs => if x = c then some 0 else (strFind c xs).map (· + 1)

/-- `Reference { whole, slash, colon }` from src/docker/reference.rs:
the whole string plus the index of the first `/` and of the first `:`
after it. -/
structure Reference where
  whole : List Char
  slash : Nat
  colon : Nat
  deriving DecidableEq

/-- `Reference::try_from(String)` (src/docker/reference.rs lines 31-42):
locate the first `/`, then the first `:` in the remainder; no emptiness
check is performed on any of the three segments. -/
def Reference.tryFrom (s : List Char) : Option Reference :=
  match strFind '/' s with
  | none => none
  | some slash =>
    match strFind ':' (s.drop (slash + 1)) with
    | none => none
    | some colon => some { whole := s, slash := slash, colon := slash + 1 + colon }

/-- `Reference::registry`: `&whole[..slash]`. -/
def Reference.registry (r : Reference) : List Char :=
  r.whole.take r.slash

/-- `Reference::repository`: `&whole[slash + 1..colon]`. -/
def Reference.repository (r : Reference) : List Char :=
  (r.whole.drop (r.slash + 1)).take (r.colon - (r.slash + 1))

/-- `Reference::tag`: `&whole[colon + 1..]`. -/
def Reference.tag (r : Reference) : List Char :=
  r.whole.drop (r.colon + 1)

theorem strFind_isSome_iff (c : Char) (s : List Char) :
    (strFind c s).isSome ↔ c ∈ s := by
  induction s with
  | nil => simp [strFind]
  | cons x xs ih =>
    by_cases hx : x = c
    · simp [strFind, hx]
    · have hne : c ≠ x := fun h => hx h.symm
      cases hfind : strFind c xs with
      | none =>
        have hmem : c ∉ xs := by rw [← ih, hfind]; simp
        simp [strFind, if_neg hx, hfind, hne, hmem]
      | some j =>
        have hmem : c ∈ xs := by rw [← ih, hfind]; simp
        simp [strFind, if_neg hx, hfind, hmem]

theorem strFind_decomp {c : Char} {s : List Char} {i : Nat}
    (h : strFind c s = some i) :
    s.take i ++ c :: s.drop (i + 1) = s ∧ c ∉ s.take i := by
  induction s generalizing i with
  | nil => simp [strFind] at h
  | cons x xs ih =>
    by_cases hx : x = c
    · simp only [strFind, if_pos hx, Option.some.injEq] at h
      subst h
      simp [hx]
    · simp only [strFind, if_neg hx] at h
      match hfind : strFind c xs with
      | none => rw [hfind] at h; simp at h
      | some j =>
        rw [hfind] at h
        have hj : j + 1 = i := by simpa using h
        subst hj
        obtain ⟨hdec, hmem⟩ := ih hfind
        refine ⟨?_, ?_⟩
        · rw [List.take_succ_cons, List.drop_succ_cons, List.cons_append, hdec]
        · intro hc
          rw [List.take_succ_cons] at hc
          rcases List.mem_cons.mp hc with h1 | h2
          · exact hx h1.symm
          · exact hmem h2

/-! ## Module store (src/store/mod.rs) -/

/-- `grpc::Image`, re-exported as `Module` (src/server/mod.rs line 11):
one catalog entry for a pulled artifact. -/
structure Module where
  id : String
  repoDigests : List String
  repoTags : List String
  size : Nat
  uid : Option Int
  username : String
  deriving DecidableEq

/-- `ModuleStoreError` (src/store/mod.rs lines 20-27). -/
inductive ModuleStoreError where
  | cannotFetchModuleMetadata
  | cannotPullModule
  | invalidPullPath
  | invalidReference
  | lockNotAcquired
  | notFound
  deriving DecidableEq

/-- `ModuleStore { root_dir, modules }`; the `Arc<RwLock<_>>` around the
catalog is dropped: every access in this embedding is a serialized
acquisition that always succeeds, so `LockNotAcquired` is unreachable. -/
structure ModuleStore where
  rootDir : String
  modules : List Module
  deriving DecidableEq

/-- `ModuleStore::new(root_dir)`: empty catalog. -/
def ModuleStore.new (rootDir : String) : ModuleStore :=
  { rootDir := rootDir, modules := [] }

/-- `ModuleStore::add`: push the module onto the catalog. -/
def ModuleStore.add (s : ModuleStore) (m : Module) : ModuleStore :=
  { s with modules := s.modules ++ [m] }

/-- `ModuleStore::list`: snapshot copy of the catalog. -/
def ModuleStore.list (s : ModuleStore) : List Module :=
  s.modules

/-- Index of the first module with the given id (`iter().position(...)`). -/
def modulePosition (key : String) : List Module → Option Nat
  | [] => none
  | m :: ms => if m.id = key then some 0 else (modulePosition key ms).map (· + 1)

/-- `ModuleStore::remove(key)`: remove (and return) the first entry whose
id matches, `NotFound` if absent. -/
def ModuleStore.remove (s : ModuleStore) (key : String) :
    Except ModuleStoreError (Module × ModuleStore) :=
  match modulePosition key s.modules with
  | none => .error .notFound
  | some i =>
    match s.modules.get? i with
    | none => .error .notFound
    | some m => .ok (m, { s with modules := s.modules.eraseIdx i })

/-- `ModuleStore::used_bytes`: `modules.iter().map(|i| i.size).sum()`. -/
def ModuleStore.usedBytes (s : ModuleStore) : Nat :=
  (s.modules.map Module.size).sum

/-- `ModuleStore::used_inodes`: `modules.len()`. -/
def ModuleStore.usedInodes (s : ModuleStore) : Nat :=
  s.modules.length

/-- Outcomes of the external effects performed by `ModuleStore::pull`
(src/store/mod.rs lines 95-111 and `pull_wasm` lines 145-165), one field
per foreign or filesystem call in program order. -/
structure PullEnv where
  /-- whether `std::fs::create_dir_all(pull_path)` succeeds. -/
  mkdirOk : Bool
  /-- whether `fp.to_str()` returns `Some` (the path is valid UTF-8). -/
  pathUtf8 : Bool
  /-- whether `CString::new(reference.whole())` succeeds (no interior NUL). -/
  refNulFree : Bool
  /-- whether `CString::new(filepath)` succeeds (no interior NUL). -/
  pathNulFree : Bool
  /-- the status returned by the foreign OCI `Pull` primitive (0 = success). -/
  pullStatus : Int
  /-- `fs::metadata(pull_file_path)`: `some len` on success, `none` on error. -/
  metadataLen : Option Nat
  deriving DecidableEq

/-- `pull_wasm(reference, fp)` (src/store/mod.rs lines 145-165): convert
the path and the reference to C strings and invoke the foreign `Pull`. -/
def pullWasm (env : PullEnv) : Except ModuleStoreError Unit :=
  if ¬ env.pathUtf8 then .error .invalidPullPath
  else if ¬ env.refNulFree then .error .invalidReference
  else if ¬ env.pathNulFree then .error .invalidPullPath
  else if env.pullStatus = 0 then .ok () else .error .cannotPullModule

/-- `ModuleStore::pull(reference)` (src/store/mod.rs lines 95-111):
create the pull directory, invoke `pull_wasm`, stat the file, and append
a `Module { id: reference.whole(), size: len, .. }` to the catalog.  The
`&mut self` receiver is made explicit: the result pairs the RPC outcome
with the store after the call. -/
def ModuleStore.pull (env : PullEnv) (r : Reference) (s : ModuleStore) :
    Except ModuleStoreError Unit × ModuleStore :=
  if ¬ env.mkdirOk then (.error .cannotPullModule, s)
  else
    match pullWasm env with
    | .error e => (.error e, s)
    | .ok () =>
      match env.metadataLen with
      | none => (.error .cannotFetchModuleMetadata, s)
      | some len =>
        (.ok (), s.add { id := String.mk r.whole, repoDigests := [], repoTags := [],
                         size := len, uid := none, username := "" })

/-- One catalog operation, for quantifying over operation sequences. -/
inductive StoreOp where
  | add (m : Module)
  | remove (key : String)

/-- Apply one operation; a failing `remove` propagates its error to the
caller and leaves the store unchanged. -/
def applyStoreOp (s : ModuleStore) : StoreOp → ModuleStore
  | .add m => s.add m
  | .remove key =>
    match s.remove key with
    | .error _ => s
    | .ok (_, s2) => s2

/-- Apply a sequence of catalog operations in order. -/
def applyStoreOps (s : ModuleStore) (ops : List StoreOp) : ModuleStore :=
  ops.foldl applyStoreOp s

/-! ## CRI data model (generated `grpc` module, fields used by the server)

String-to-string proto maps become association lists (`Labels`); proto
fields that no embedded operation reads are omitted.  The enum values are
those of the `runtime.v1alpha2` proto: `PodSandboxState` has
`SANDBOX_READY = 0`, `SANDBOX_NOTREADY = 1`; `ContainerState` has
`CONTAINER_CREATED = 0`, `CONTAINER_RUNNING = 1`, `CONTAINER_EXITED = 2`,
`CONTAINER_UNKNOWN = 3`; both are stored as `i32`. -/

abbrev Labels := List (String × String)

def sandboxReady : Int := 0
def sandboxNotready : Int := 1
def containerCreated : Int := 0
def containerRunning : Int := 1
def containerExited : Int := 2
def containerUnknown : Int := 3

/-- `HashMap::get` / `BTreeMap::get` on the association-list model. -/
def lookupA {α : Type} (k : String) : List (String × α) → Option α
  | [] => none
  | p :: ps => if p.1 = k then some p.2 else lookupA k ps

/-- `get_mut` followed by mutation: replace the value at the first
occurrence of the key. -/
def updateA {α : Type} (k : String) (v : α) : List (String × α) → List (String × α)
  | [] => []
  | p :: ps => if p.1 = k then (k, v) :: ps else p :: updateA k v ps

/-- `remove(key)`: drop the first occurrence of the key. -/
def eraseA {α : Type} (k : String) : List (String × α) → List (String × α)
  | [] => []
  | p :: ps => if p.1 = k then ps else p :: eraseA k ps

/-- `insert(key, value)`: replace any existing entry, else add one. -/
def insertA {α : Type} (k : String) (v : α) (l : List (String × α)) : List (String × α) :=
  (k, v) :: eraseA k l

/-- `grpc::ContainerMetadata`. -/
structure ContainerMetadata where
  name : String := ""
  attempt : Nat := 0
  deriving DecidableEq

/-- `grpc::PodSandboxMetadata` (the proto field `namespace` is a Lean
keyword and is spelled `nspace` here). -/
structure PodSandboxMetadata where
  name : String := ""
  uid : String := ""
  nspace : String := ""
  attempt : Nat := 0
  deriving DecidableEq

/-- `grpc::ImageSpec`. -/
structure ImageSpec where
  image : String := ""
  deriving DecidableEq

/-- `grpc::KeyValue` (one entry of a container's env list). -/
structure KeyValue where
  key : String := ""
  value : String := ""
  deriving DecidableEq

/-- `grpc::Mount` (the fields copied by `create_container`). -/
structure Mount where
  containerPath : String := ""
  hostPath : String := ""
  readonly : Bool := false
  selinuxRelabel : Bool := false
  propagation : Int := 0
  deriving DecidableEq

/-- `grpc::ContainerConfig` (the fields the server reads). -/
structure ContainerConfig where
  metadata : Option ContainerMetadata := none
  image : Option ImageSpec := none
  args : List String := []
  envs : List KeyValue := []
  mounts : List Mount := []
  labels : Labels := []
  annotations : Labels := []
  logPath : String := ""
  deriving DecidableEq

/-- `grpc::PodSandboxConfig` (the only field `create_container` reads is
`log_directory`). -/
structure PodSandboxConfig where
  logDirectory : String := ""
  deriving DecidableEq

/-- `grpc::PodSandbox` (src/server/runtime.rs keeps one inside each
`UserSandbox`). -/
structure PodSandbox where
  id : String := ""
  metadata : Option PodSandboxMetadata := none
  state : Int := 0
  createdAt : Int := 0
  labels : Labels := []
  annotations : Labels := []
  runtimeHandler : String := ""
  deriving DecidableEq

/-- `UserSandbox` (src/server/runtime.rs lines 121-125). -/
structure UserSandbox where
  inner : PodSandbox := {}
  runningContainers : List String := []
  deriving DecidableEq

/-- `UserContainer` (src/server/runtime.rs lines 39-66). -/
structure UserContainer where
  id : String := ""
  podSandboxId : String := ""
  imageRef : String := ""
  createdAt : Int := 0
  state : Int := 0
  config : ContainerConfig := {}
  logPath : Option String := none
  volumes : List Mount := []
  deriving DecidableEq

/-- `grpc::Container`, the wire shape produced by
`From<UserContainer> for grpc::Container` (src/server/runtime.rs lines 68-82). -/
structure GrpcContainer where
  id : String
  podSandboxId : String
  image : Option ImageSpec
  createdAt : Int
  imageRef : String
  annotations : Labels
  labels : Labels
  state : Int
  metadata : Option ContainerMetadata
  deriving DecidableEq

/-- `grpc::Container::from(item: UserContainer)`. -/
def containerFrom (item : UserContainer) : GrpcContainer :=
  { id := item.id
    podSandboxId := item.podSandboxId
    image := item.config.image
    createdAt := item.createdAt
    imageRef := item.imageRef
    annotations := item.config.annotations
    labels := item.config.labels
    state := item.state
    metadata := item.config.metadata }

/-- `grpc::ContainerFilter` (the proto wraps the state in a
`ContainerStateValue`; the wrapper is flattened to `Option Int` here,
`none` when the filter carries no state). -/
structure ContainerFilter where
  id : String := ""
  state : Option Int := none
  podSandboxId : String := ""
  labelSelector : Labels := []
  deriving DecidableEq

/-- `has_labels(search_labels, target_labels)` (src/server/runtime.rs
lines 764-774): every searched pair must be present in the target. -/
def hasLabels (search target : Labels) : Bool :=
  search.all fun kv => lookupA kv.1 target == some kv.2

/-- The filter predicate of `list_containers` (src/server/runtime.rs
lines 668-679). -/
def passesContainerFilter (filter : ContainerFilter) (c : UserContainer) : Bool :=
  (filter.id == "" || c.id == filter.id)
  && ((filter.state.map fun s => s == c.state).getD true)
  && (filter.podSandboxId == "" || c.podSandboxId == filter.podSandboxId)
  && (filter.labelSelector.isEmpty || hasLabels filter.labelSelector c.config.labels)

/-- `list_containers` (src/server/runtime.rs lines 657-684) on the values
of the container registry: filter, then convert each survivor with
`grpc::Container::from`. -/
def listContainers (filter : ContainerFilter) (containers : List UserContainer) :
    List GrpcContainer :=
  (containers.filter (passesContainerFilter filter)).map containerFrom

/-! ## Runtime service state machine (src/server/runtime.rs)

`CriRuntimeService` holds the sandbox registry, the container registry and
the running-set of cancellation tokens.  External stop effects
(`wascc_stop(key)`) are recorded in a ghost trace `stopEvents` so that
"`stop()` was invoked on the token" is observable in the model.  A Rust
panic (`todo!`, `unwrap`) is the `none` result. -/

/-- `ContainerCancellationToken` (src/server/runtime.rs lines 1627-1630);
the `JoinHandle` carried by the WASI variant is never used by `stop` or
`remove` and is dropped from the model. -/
inductive ContainerCancellationToken where
  | wasccCancelationToken (key : String)
  | wasiCancelationToken
  deriving DecidableEq

/-- `tonic::Status` outcomes produced by the embedded handlers.
`ioError` stands for the `?`-conversion of a `std::io::Error`. -/
inductive Status where
  | notFound (msg : String)
  | failedPrecondition (msg : String)
  | invalidArgument (msg : String)
  | ioError (msg : String)
  deriving DecidableEq

/-- The mutable state of `CriRuntimeService` (src/server/runtime.rs lines
128-136) plus the ghost trace of invoked external stop effects. -/
structure RuntimeState where
  sandboxes : List (String × UserSandbox) := []
  containers : List (String × UserContainer) := []
  runningContainers : List (String × ContainerCancellationToken) := []
  stopEvents : List String := []
  deriving DecidableEq

/-- `ContainerCancellationToken::stop` (src/server/runtime.rs lines
1633-1645): the WASCC variant calls `wascc_stop(key)` and swallows its
error; the WASI variant hits `todo!` and panics. -/
def tokenStop (st : RuntimeState) :
    ContainerCancellationToken → Option RuntimeState
  | .wasccCancelationToken key => some { st with stopEvents := st.stopEvents ++ [key] }
  | .wasiCancelationToken => none

/-- `stop_container` (src/server/runtime.rs lines 610-619): look the id up
in the running-set; absent means success with no effect. -/
def stopContainer (id : String) (st : RuntimeState) : Option RuntimeState :=
  match lookupA id st.runningContainers with
  | none => some st
  | some token => tokenStop st token

/-- `stop_pod_sandbox` (src/server/runtime.rs lines 338-364).  The loop
drains `running_containers`, and for each id builds a `stop_container`
future that is dropped without ever being awaited (lines 351-356), so the
body of `stop_container` never executes and no token is stopped; the
sandbox is then marked `NotReady`. -/
def stopPodSandbox (id : String) (st : RuntimeState) : Except Status RuntimeState :=
  match lookupA id st.sandboxes with
  | none => .error (.notFound ("Sandbox " ++ id ++ " does not exist"))
  | some sandbox =>
    let sandbox2 := { sandbox with
      runningContainers := []
      inner := { sandbox.inner with state := sandboxNotready } }
    .ok { st with sandboxes := updateA id sandbox2 st.sandboxes }

/-- `remove_pod_sandbox` (src/server/runtime.rs lines 368-402).  For each
attached container id a `remove_container` future is created and dropped
unawaited (lines 392-396), so no container leaves the registry; the
sandbox entry alone is removed. -/
def removePodSandbox (id : String) (st : RuntimeState) : Except Status RuntimeState :=
  match lookupA id st.sandboxes with
  | none => .error (.notFound ("Sandbox " ++ id ++ " does not exist"))
  | some sandbox =>
    if sandbox.inner.state = sandboxReady then
      .error (.failedPrecondition ("Sandbox container " ++ id ++ " is not fully stopped"))
    else
      .ok { st with sandboxes := eraseA id st.sandboxes }

/-- Index of the first occurrence of an id (`iter().position(...)`). -/
def idPosition (key : String) : List String → Option Nat
  | [] => none
  | x :: xs => if x = key then some 0 else (idPosition key xs).map (· + 1)

/-- The tail of `remove_container` after the running-set bookkeeping
(src/server/runtime.rs lines 638-652): `containers.get_mut(&id).unwrap()`
panics on an unknown id, the container's id is removed from its sandbox's
list (`position(...).unwrap()` panics when absent; a missing sandbox is
skipped), and the container entry is dropped. -/
def removeContainerRest (id : String) (st : RuntimeState) : Option RuntimeState :=
  match lookupA id st.containers with
  | none => none
  | some container =>
    match lookupA container.podSandboxId st.sandboxes with
    | some sandbox =>
      match idPosition container.id sandbox.runningContainers with
      | none => none
      | some pos =>
        let sandbox2 := { sandbox with
          runningContainers := sandbox.runningContainers.eraseIdx pos }
        some { st with
          sandboxes := updateA container.podSandboxId sandbox2 st.sandboxes
          containers := eraseA id st.containers }
    | none => some { st with containers := eraseA id st.containers }

/-- `remove_container` (src/server/runtime.rs lines 621-655): when the
running-set holds a token, `remove()` is invoked on it (for WASCC this
calls `wascc_stop`; for WASI it hits `todo!` and panics) and the token is
evicted, then the registry bookkeeping of `removeContainerRest` runs. -/
def removeContainer (id : String) (st : RuntimeState) : Option RuntimeState :=
  match lookupA id st.runningContainers with
  | some (.wasccCancelationToken key) =>
    removeContainerRest id { st with
      stopEvents := st.stopEvents ++ [key]
      runningContainers := eraseA id st.runningContainers }
  | some .wasiCancelationToken => none
  | none => removeContainerRest id st

/-- `grpc::CreateContainerRequest`. -/
structure CreateContainerRequest where
  podSandboxId : String := ""
  config : Option ContainerConfig := none
  sandboxConfig : Option PodSandboxConfig := none

/-- Outcomes of the non-deterministic inputs of `create_container`:
the generated UUIDs, the timestamp, and the two `create_dir_all` calls. -/
structure CreateEnv where
  containerId : String
  volumeId : Nat → String
  now : Int
  containerDirOk : Bool
  logDirOk : Bool

/-- `create_container` (src/server/runtime.rs lines 435-524).
`config`/`sandbox_config` default when absent; a missing `config.image`
panics (`.as_ref().unwrap()`, line 458); the container root directory and
(when both log components are non-empty) the log directory are created;
one volume mount per requested mount gets a fresh `volumes/<uuid>` host
path; finally the sandbox must exist (`NotFound` otherwise), the new id is
pushed onto its `running_containers`, and the container is inserted. -/
def createContainer (env : CreateEnv) (req : CreateContainerRequest) (st : RuntimeState) :
    Option (Except Status (String × RuntimeState)) :=
  let containerConfig := req.config.getD {}
  let sandboxConfig := req.sandboxConfig.getD {}
  let id := env.containerId
  match containerConfig.image with
  | none => none
  | some spec =>
    if ¬ env.containerDirOk then some (.error (.ioError "create container root dir"))
    else if sandboxConfig.logDirectory ≠ "" ∧ containerConfig.logPath ≠ "" ∧ ¬ env.logDirOk then
      some (.error (.ioError "create log dir"))
    else
      let container : UserContainer := {
        id := id
        podSandboxId := req.podSandboxId
        state := containerCreated
        createdAt := env.now
        config := containerConfig
        logPath :=
          if sandboxConfig.logDirectory ≠ "" ∧ containerConfig.logPath ≠ "" then
            some (sandboxConfig.logDirectory ++ "/" ++ containerConfig.logPath)
          else none
        imageRef := spec.image
        volumes := containerConfig.mounts.enum.map fun p =>
          { hostPath := "volumes/" ++ env.volumeId p.1
            containerPath := p.2.containerPath
            propagation := p.2.propagation
            readonly := p.2.readonly
            selinuxRelabel := p.2.selinuxRelabel } }
      match lookupA req.podSandboxId st.sandboxes with
      | none =>
        some (.error (.notFound ("Could not found sandbox with id " ++ req.podSandboxId)))
      | some sandbox =>
        some (.ok (id, { st with
          sandboxes := updateA req.podSandboxId
            { sandbox with runningContainers := sandbox.runningContainers ++ [container.id] }
            st.sandboxes
          containers := insertA container.id container st.containers }))

/-! ## Image service (src/server/image.rs) -/

/-- `grpc::PullImageRequest` (the `ImageSpec` wrapper around the string). -/
structure PullImageRequest where
  image : Option ImageSpec := none

/-- `grpc::PullImageResponse`. -/
structure PullImageResponse where
  imageRef : String
  deriving DecidableEq

/-- `pull_image` (src/server/image.rs lines 85-99): `image.unwrap()`
panics on a missing spec, `Reference::try_from(...).expect(...)` panics on
a malformed reference, `pull_module(...).expect(...)` panics when the
store's `pull` fails; on success the response carries the original
reference string (cloned before parsing). -/
def pullImage (env : PullEnv) (req : PullImageRequest) (store : ModuleStore) :
    Option (PullImageResponse × ModuleStore) :=
  match req.image with
  | none => none
  | some spec =>
    match Reference.tryFrom spec.image.toList with
    | none => none
    | some reference =>
      match ModuleStore.pull env reference store with
      | (.error _, _) => none
      | (.ok (), store2) => some ({ imageRef := spec.image }, store2)

/-! ## C3 — reference parsing -/

/-- C3, counterexample: the claim says parsing fails when any of the three
segments is empty, but `Reference::try_from("a/:v1")` succeeds (slash at
index 1, colon at index 2) with an empty repository segment — the parser
performs no emptiness check. -/
theorem c3_counterexample :
    Reference.tryFrom ("a/:v1".toList) = some ⟨"a/:v1".toList, 1, 2⟩
    ∧ Reference.repository ⟨"a/:v1".toList, 1, 2⟩ = [] := by
  constructor <;> decide

/-- C3 (amended): parsing succeeds exactly when the string contains a `/`
and a `:` after the first `/` — the three segments may be empty — and on
success `registry`, `repository` and `tag` are the substrings before the
first `/`, between it and the first following `:`, and after that `:`,
so the whole string is `registry ++ "/" ++ repository ++ ":" ++ tag` with
no `/` in the registry and no `:` in the repository. -/
theorem c3_reference_parse (s : List Char) :
    ((Reference.tryFrom s).isSome ↔ ∃ i, strFind '/' s = some i ∧ ':' ∈ s.drop (i + 1))
    ∧ ∀ r, Reference.tryFrom s = some r →
        r.whole = s
        ∧ s = r.registry ++ '/' :: (r.repository ++ ':' :: r.tag)
        ∧ '/' ∉ r.registry ∧ ':' ∉ r.repository := by
  constructor
  · cases h1 : strFind '/' s with
    | none => simp [Reference.tryFrom, h1]
    | some slash =>
      cases h2 : strFind ':' (s.drop (slash + 1)) with
      | none =>
        simp only [Reference.tryFrom, h1, h2, Option.isSome_none]
        constructor
        · intro h; exact absurd h (by simp)
        · rintro ⟨i, hi, hmem⟩
          obtain rfl : slash = i := by simpa using hi
          have := (strFind_isSome_iff ':' (s.drop (slash + 1))).mpr hmem
          rw [h2] at this
          simp at this
      | some colon =>
        simp only [Reference.tryFrom, h1, h2, Option.isSome_some, true_iff]
        exact ⟨slash, rfl,
          (strFind_isSome_iff ':' (s.drop (slash + 1))).mp (by rw [h2]; rfl)⟩
  · intro r h
    rw [Reference.tryFrom] at h
    split at h
    · exact absurd h (by simp)
    · rename_i slash h1
      split at h
      · exact absurd h (by simp)
      · rename_i colon h2
        obtain rfl : r = ⟨s, slash, slash + 1 + colon⟩ := by
          simpa using h.symm
        obtain ⟨ha1, ha2⟩ := strFind_decomp h1
        obtain ⟨hb1, hb2⟩ := strFind_decomp h2
        have hrep : Reference.repository ⟨s, slash, slash + 1 + colon⟩
            = (s.drop (slash + 1)).take colon := by
          have hidx : slash + 1 + colon - (slash + 1) = colon := by omega
          rw [Reference.repository]
          simp only
          rw [hidx]
        have htag : Reference.tag ⟨s, slash, slash + 1 + colon⟩
            = (s.drop (slash + 1)).drop (colon + 1) := by
          rw [Reference.tag]
          simp only
          rw [List.drop_drop]
          congr 1
        refine ⟨rfl, ?_, ?_, ?_⟩
        · simp only [Reference.registry, hrep, htag]
          rw [hb1, ha1]
        · exact ha2
        · rw [hrep]; exact hb2

/-- C3, witness: the amended theorem applied to the spec's example
`"webassembly.azurecr.io/hello:v1"` (slash at 22, colon at 28), whose
decomposition gives registry `webassembly.azurecr.io`, repository
`hello`, tag `v1`. -/
theorem c3_reference_parse_witness :
    "webassembly.azurecr.io/hello:v1".toList
      = (⟨"webassembly.azurecr.io/hello:v1".toList, 22, 28⟩ : Reference).registry
        ++ '/' :: ((⟨"webassembly.azurecr.io/hello:v1".toList, 22, 28⟩ : Reference).repository
        ++ ':' :: (⟨"webassembly.azurecr.io/hello:v1".toList, 22, 28⟩ : Reference).tag)
    ∧ (⟨"webassembly.azurecr.io/hello:v1".toList, 22, 28⟩ : Reference).registry
        = "webassembly.azurecr.io".toList
    ∧ (⟨"webassembly.azurecr.io/hello:v1".toList, 22, 28⟩ : Reference).repository
        = "hello".toList
    ∧ (⟨"webassembly.azurecr.io/hello:v1".toList, 22, 28⟩ : Reference).tag
        = "v1".toList :=
  ⟨((c3_reference_parse ("webassembly.azurecr.io/hello:v1".toList)).2
      ⟨"webassembly.azurecr.io/hello:v1".toList, 22, 28⟩ (by decide)).2.1,
    by decide, by decide, by decide⟩

/-! ## C5, C6 — module store -/

theorem foldl_add_eq_sum (l : List Nat) (a : Nat) :
    l.foldl (· + ·) a = a + l.sum := by
  induction l generalizing a with
  | nil => simp
  | cons x xs ih => simp [List.foldl, ih]; omega

/-- C5: after any sequence of `ModuleStore` add and remove operations,
`used_bytes()` is the sum of the `size` fields of the modules currently in
the catalog (as returned by `list()`) and `used_inodes()` is the number of
catalog entries. -/
theorem c5_catalog_roundtrip (root : String) (ops : List StoreOp) :
    (applyStoreOps (ModuleStore.new root) ops).usedBytes
      = ((applyStoreOps (ModuleStore.new root) ops).list.map Module.size).foldl (· + ·) 0
    ∧ (applyStoreOps (ModuleStore.new root) ops).usedInodes
      = (applyStoreOps (ModuleStore.new root) ops).list.length := by
  refine ⟨?_, rfl⟩
  rw [foldl_add_eq_sum]
  simp [ModuleStore.usedBytes, ModuleStore.list]

/-- C6: whenever `ModuleStore::pull` returns an error — whichever of the
error kinds — the catalog (indeed the whole store) is unchanged: in
particular no `Module` with id `r.whole` was added by the failed call. -/
theorem c6_pull_error_frame (env : PullEnv) (r : Reference) (s : ModuleStore)
    (e : ModuleStoreError) (h : (ModuleStore.pull env r s).1 = .error e) :
    (ModuleStore.pull env r s).2 = s := by
  by_cases hm : env.mkdirOk
  · cases hpw : pullWasm env with
    | error e2 => simp [ModuleStore.pull, hm, hpw]
    | ok u =>
      cases u
      cases hml : env.metadataLen with
      | none => simp [ModuleStore.pull, hm, hpw, hml]
      | some len => simp [ModuleStore.pull, hm, hpw, hml] at h
  · simp [ModuleStore.pull, hm]

/-- C6, witness: a pull whose `create_dir_all` fails (error
`CannotPullModule`) leaves the empty store empty. -/
theorem c6_pull_error_frame_witness :
    (ModuleStore.pull ⟨false, true, true, true, 0, some 5⟩
      ⟨"a/b:c".toList, 1, 3⟩ (ModuleStore.new "/tmp")).2 = ModuleStore.new "/tmp" :=
  c6_pull_error_frame ⟨false, true, true, true, 0, some 5⟩
    ⟨"a/b:c".toList, 1, 3⟩ (ModuleStore.new "/tmp") .cannotPullModule (by rfl)

/-! ## C4 — list_containers filter semantics -/

theorem hasLabels_eq_true_iff (search target : Labels) :
    hasLabels search target = true
      ↔ ∀ kv ∈ search, lookupA kv.1 target = some kv.2 := by
  simp [hasLabels, List.all_eq_true]

theorem labelClause_iff (sel target : Labels) :
    (sel = [] ∨ hasLabels sel target = true)
      ↔ ∀ a b, (a, b) ∈ sel → lookupA a target = some b := by
  constructor
  · rintro (rfl | h)
    · simp
    · intro a b hab
      exact (hasLabels_eq_true_iff sel target).mp h (a, b) hab
  · intro h
    right
    exact (hasLabels_eq_true_iff sel target).mpr fun kv hkv => h kv.1 kv.2 hkv

/-- The boolean filter of `list_containers`, as a proposition about the
container's fields. -/
theorem passesContainerFilter_eq_true_iff (filter : ContainerFilter) (c : UserContainer) :
    passesContainerFilter filter c = true
      ↔ ((filter.id = "" ∨ c.id = filter.id)
        ∧ (filter.state = none ∨ filter.state = some c.state)
        ∧ (filter.podSandboxId = "" ∨ c.podSandboxId = filter.podSandboxId)
        ∧ ∀ kv ∈ filter.labelSelector, lookupA kv.1 c.config.labels = some kv.2) := by
  cases hst : filter.state with
  | none =>
    simp [passesContainerFilter, hst, labelClause_iff, and_assoc]
  | some s =>
    simp [passesContainerFilter, hst, labelClause_iff, and_assoc]

/-- The filter only inspects the id, state, sandbox id and labels, all of
which `grpc::Container::from` preserves. -/
theorem passesContainerFilter_congr {filter : ContainerFilter} {c c' : UserContainer}
    (h1 : c'.id = c.id) (h2 : c'.state = c.state) (h3 : c'.podSandboxId = c.podSandboxId)
    (h4 : c'.config.labels = c.config.labels) :
    passesContainerFilter filter c' = passesContainerFilter filter c := by
  simp [passesContainerFilter, h1, h2, h3, h4]

/-- C4: a container of the registry appears (as its wire conversion) in
`list_containers(F)` iff its id, state and sandbox id pass the
corresponding equality filters (each vacuous when empty/absent) and every
`(k, v)` pair of the label selector is present in the container's labels
(AND semantics; the empty selector matches every container). -/
theorem c4_list_containers_filter (filter : ContainerFilter)
    (cs : List UserContainer) (c : UserContainer) (hc : c ∈ cs) :
    containerFrom c ∈ listContainers filter cs
      ↔ ((filter.id = "" ∨ c.id = filter.id)
        ∧ (filter.state = none ∨ filter.state = some c.state)
        ∧ (filter.podSandboxId = "" ∨ c.podSandboxId = filter.podSandboxId)
        ∧ ∀ kv ∈ filter.labelSelector, lookupA kv.1 c.config.labels = some kv.2) := by
  rw [← passesContainerFilter_eq_true_iff]
  constructor
  · intro h
    obtain ⟨c', hc'mem, hc'eq⟩ := List.mem_map.mp h
    have hfil := (List.mem_filter.mp hc'mem).2
    rw [passesContainerFilter_congr (congrArg GrpcContainer.id hc'eq)
      (congrArg GrpcContainer.state hc'eq) (congrArg GrpcContainer.podSandboxId hc'eq)
      (congrArg GrpcContainer.labels hc'eq)] at hfil
    exact hfil
  · intro h
    exact List.mem_map_of_mem containerFrom (List.mem_filter.mpr ⟨hc, h⟩)

/-- A registry and a filter for the C4 witness: a selector with one label
and a container carrying it. -/
def c4Container : UserContainer :=
  { id := "c1", podSandboxId := "s1", config := { labels := [("app", "web")] } }

def c4Filter : ContainerFilter :=
  { labelSelector := [("app", "web")] }

/-- C4, witness: the filter theorem applied at a concrete registry — the
labelled container passes a one-pair selector. -/
theorem c4_list_containers_filter_witness :
    containerFrom c4Container ∈ listContainers c4Filter [c4Container] :=
  (c4_list_containers_filter c4Filter [c4Container] c4Container (by simp)).mpr
    (by refine ⟨Or.inl rfl, Or.inl rfl, Or.inl rfl, ?_⟩; decide)

/-! ## C1, C2, C9, C10 — sandbox and container lifecycle -/

/-- The sandbox reached by `stop_pod_sandbox`: `running_containers`
drained, state `NotReady`. -/
def stoppedSandbox (sb : UserSandbox) : UserSandbox :=
  { sb with
    runningContainers := []
    inner := { sb.inner with state := sandboxNotready } }

theorem lookupA_updateA {a : Type} (k : String) (v w : a) (l : List (String × a))
    (h : lookupA k l = some w) : lookupA k (updateA k v l) = some v := by
  induction l with
  | nil => simp [lookupA] at h
  | cons p ps ih =>
    by_cases hp : p.1 = k
    · simp [lookupA, updateA, hp]
    · simp only [lookupA, updateA, if_neg hp] at h ⊢
      exact ih h

/-- A Ready sandbox `s1` holding one attached running container `c1`
whose WASCC cancellation token is in the running-set. -/
def exContainer : UserContainer :=
  { id := "c1", podSandboxId := "s1", imageRef := "reg/repo:tag", state := containerRunning }

def exSandboxReady : UserSandbox :=
  { inner := { id := "s1", state := sandboxReady, runtimeHandler := "WASI" }
    runningContainers := ["c1"] }

def exState1 : RuntimeState :=
  { sandboxes := [("s1", exSandboxReady)]
    containers := [("c1", exContainer)]
    runningContainers := [("c1", .wasccCancelationToken "KEY")]
    stopEvents := [] }

/-- C1, at the failing input: `stop_pod_sandbox("s1")` on a Ready sandbox
with one attached container returns success and marks the sandbox
NotReady, but the `stop_container` future it builds for `"c1"` is dropped
without being awaited, so no stop is invoked: the ghost trace of external
stop effects stays empty and the running-set still holds the token —
although an actual `stop_container("c1")` call on the same state would
have stopped the WASCC token (appending `"KEY"` to the trace), as the
third conjunct shows. -/
theorem c1_stop_pod_sandbox_never_stops :
    stopPodSandbox "s1" exState1
      = .ok { exState1 with sandboxes := [("s1", stoppedSandbox exSandboxReady)] }
    ∧ ({ exState1 with sandboxes := [("s1", stoppedSandbox exSandboxReady)]
          } : RuntimeState).stopEvents = []
    ∧ stopContainer "c1" exState1 = some { exState1 with stopEvents := ["KEY"] } := by
  refine ⟨rfl, rfl, rfl⟩

/-- A NotReady sandbox `s1` still holding the attached container `c1`.
Reachable: run the sandbox, stop it (which drains the list and marks it
NotReady), then `create_container` — which never checks the sandbox
state — pushes the new container id onto `running_containers`. -/
def exSandboxStopped : UserSandbox :=
  { inner := { id := "s1", state := sandboxNotready, runtimeHandler := "WASI" }
    runningContainers := ["c1"] }

def exState2 : RuntimeState :=
  { sandboxes := [("s1", exSandboxStopped)]
    containers := [("c1", exContainer)]
    runningContainers := []
    stopEvents := [] }

/-- C2, at the failing input: `remove_pod_sandbox("s1")` on a NotReady
sandbox with one attached container removes the sandbox entry and returns
success, but the `remove_container` future it builds for `"c1"` is
dropped without being awaited, so the container stays in the registry —
although an actual `remove_container("c1")` call on the same state would
have removed it, as the third conjunct shows. -/
theorem c2_remove_pod_sandbox_never_removes :
    removePodSandbox "s1" exState2 = .ok { exState2 with sandboxes := [] }
    ∧ lookupA "c1" ({ exState2 with sandboxes := [] } : RuntimeState).containers
        = some exContainer
    ∧ removeContainer "c1" exState2
        = some { exState2 with
            sandboxes := [("s1", { exSandboxStopped with runningContainers := [] })]
            containers := [] } := by
  refine ⟨rfl, rfl, rfl⟩

/-- C10: stopping a registered sandbox succeeds, empties its
`running_containers` list and leaves the container registry untouched
(every container keeps its state field); the subsequent
`remove_pod_sandbox` then succeeds — the sandbox is NotReady — and, its
attached-container list being empty (and its `remove_container` futures
unawaited regardless), removes no container from the registry: it only
erases the sandbox entry. -/
theorem c10_stop_then_remove (st : RuntimeState) (id : String) (sb : UserSandbox)
    (h : lookupA id st.sandboxes = some sb) :
    ∃ st2, stopPodSandbox id st = .ok st2
      ∧ st2.containers = st.containers
      ∧ st2.runningContainers = st.runningContainers
      ∧ lookupA id st2.sandboxes = some (stoppedSandbox sb)
      ∧ removePodSandbox id st2 = .ok { st2 with sandboxes := eraseA id st2.sandboxes } := by
  refine ⟨{ st with sandboxes := updateA id (stoppedSandbox sb) st.sandboxes },
    ?_, rfl, rfl, ?_, ?_⟩
  · simp [stopPodSandbox, h, stoppedSandbox]
  · exact lookupA_updateA id (stoppedSandbox sb) sb st.sandboxes h
  · rw [removePodSandbox, lookupA_updateA id (stoppedSandbox sb) sb st.sandboxes h]
    simp [stoppedSandbox, sandboxNotready, sandboxReady]

/-- C10, witness: the frame theorem applied to the concrete state
`exState1` (sandbox `s1`, one attached container, one token). -/
theorem c10_stop_then_remove_witness :
    ∃ st2, stopPodSandbox "s1" exState1 = .ok st2
      ∧ st2.containers = exState1.containers
      ∧ st2.runningContainers = exState1.runningContainers
      ∧ lookupA "s1" st2.sandboxes = some (stoppedSandbox exSandboxReady)
      ∧ removePodSandbox "s1" st2 = .ok { st2 with sandboxes := eraseA "s1" st2.sandboxes } :=
  c10_stop_then_remove exState1 "s1" exSandboxReady (by rfl)

/-- A running-set holding a WASI token for `c1`. -/
def exStateWasi : RuntimeState :=
  { sandboxes := []
    containers := []
    runningContainers := [("c1", .wasiCancelationToken)]
    stopEvents := [] }

/-- C9, counterexample: the claim says `stop_container` always returns
success and that `stop()` is a no-op for WASI containers; in the code the
WASI arm of `ContainerCancellationToken::stop` is `todo!(...)`, so a
`stop_container` call that finds a WASI token panics (modelled `none`)
instead of returning success. -/
theorem c9_counterexample : stopContainer "c1" exStateWasi = none := by rfl

/-- C9 (amended): `stop_container(c)` returns success when the running-set
has no entry for `c` (no-op) and when the entry is a WASCC token (whose
`stop()` is invoked, its error swallowed); when the entry is a WASI token
the `todo!` in `stop()` panics, so the call does not return. -/
theorem c9_stop_container (st : RuntimeState) (id : String) :
    (lookupA id st.runningContainers = none → stopContainer id st = some st)
    ∧ (∀ key, lookupA id st.runningContainers = some (.wasccCancelationToken key) →
        stopContainer id st = some { st with stopEvents := st.stopEvents ++ [key] })
    ∧ (lookupA id st.runningContainers = some .wasiCancelationToken →
        stopContainer id st = none) := by
  refine ⟨?_, ?_, ?_⟩
  · intro h
    rw [stopContainer, h]
  · intro key h
    rw [stopContainer, h]
    rfl
  · intro h
    rw [stopContainer, h]
    rfl

/-- C9, witness: the amended theorem applied at `exState1`, whose
running-set holds a WASCC token for `c1`. -/
theorem c9_stop_container_witness :
    stopContainer "c1" exState1
      = some { exState1 with stopEvents := exState1.stopEvents ++ ["KEY"] } :=
  (c9_stop_container exState1 "c1").2.1 "KEY" (by rfl)

/-! ## C7, C8 — panics where the spec promises InvalidArgument -/

/-- C7, counterexample: the claim says a malformed image spec makes
`pull_image` return `InvalidArgument`; in the code
`Reference::try_from(...).expect("Image ref is malformed")` panics instead
(the handler has no error return at all), here at the concrete spec
`"noslash"`. -/
theorem c7_counterexample :
    pullImage ⟨true, true, true, true, 0, some 5⟩ { image := some { image := "noslash" } }
      (ModuleStore.new "/tmp") = none := by rfl

/-- C7 (amended): `pull_image` panics — rather than returning any error
status — when the image spec is absent (`unwrap`), when the reference is
malformed (`expect`), or when the store's `pull` fails (`expect`); on
success it returns the original reference string unchanged together with
the updated store. -/
theorem c7_pull_image (env : PullEnv) (s : String) (store : ModuleStore) :
    pullImage env { image := none } store = none
    ∧ (Reference.tryFrom s.toList = none →
        pullImage env { image := some { image := s } } store = none)
    ∧ ∀ r, Reference.tryFrom s.toList = some r →
        (∀ e, (ModuleStore.pull env r store).1 = .error e →
          pullImage env { image := some { image := s } } store = none)
        ∧ ∀ store2, ModuleStore.pull env r store = (.ok (), store2) →
            pullImage env { image := some { image := s } } store
              = some ({ imageRef := s }, store2) := by
  refine ⟨rfl, ?_, ?_⟩
  · intro h
    simp only [String.toList] at h
    simp [pullImage, h]
  · intro r hr
    simp only [String.toList] at hr
    constructor
    · intro e he
      rcases hp : ModuleStore.pull env r store with ⟨res, st2⟩
      rw [hp] at he
      simp only at he
      subst he
      simp [pullImage, hr, hp]
    · intro store2 hp
      simp [pullImage, hr, hp]

/-- C7, witness: a successful pull of `"a/b:c"` (foreign pull status 0,
module file of 5 bytes) returns the original string and the catalog gains
the module. -/
theorem c7_pull_image_witness :
    pullImage ⟨true, true, true, true, 0, some 5⟩ { image := some { image := "a/b:c" } }
        (ModuleStore.new "")
      = some ({ imageRef := "a/b:c" },
          { rootDir := ""
            modules := [{ id := "a/b:c", repoDigests := [], repoTags := [],
                          size := 5, uid := none, username := "" }] }) :=
  ((c7_pull_image ⟨true, true, true, true, 0, some 5⟩ "a/b:c" (ModuleStore.new "")).2.2
      ⟨"a/b:c".toList, 1, 3⟩ (by rfl)).2
    { rootDir := ""
      modules := [{ id := "a/b:c", repoDigests := [], repoTags := [],
                    size := 5, uid := none, username := "" }] } (by rfl)

theorem lookupA_insertA {a : Type} (k : String) (v : a) (l : List (String × a)) :
    lookupA k (insertA k v l) = some v := by
  simp [insertA, lookupA]

/-- C8, counterexample: the claim says a `create_container` request whose
config lacks the image field fails with `InvalidArgument`; in the code
`container_config.image.as_ref().unwrap()` panics instead, here at a
concrete request with an imageless config against a live sandbox. -/
theorem c8_counterexample :
    createContainer ⟨"cid", fun _ => "vid", 0, true, true⟩
      { podSandboxId := "s1", config := some {}, sandboxConfig := none } exState1 = none := by
  rfl

/-- C8 (amended): when the (defaulted) config lacks the image field,
`create_container` panics — it does not return `InvalidArgument` or any
other status; when the image field is present and the call succeeds, the
new container registered under the returned id has the spec's image
string as its `image_ref`. -/
theorem c8_create_container (env : CreateEnv) (req : CreateContainerRequest)
    (st : RuntimeState) :
    ((req.config.getD {}).image = none → createContainer env req st = none)
    ∧ ∀ spec, (req.config.getD {}).image = some spec →
        ∀ id st2, createContainer env req st = some (.ok (id, st2)) →
          ∃ c, lookupA id st2.containers = some c ∧ c.imageRef = spec.image := by
  constructor
  · intro h
    simp [createContainer, h]
  · intro spec hspec id st2 hc
    simp only [createContainer, hspec] at hc
    split at hc
    · simp at hc
    · split at hc
      · simp at hc
      · split at hc
        · simp at hc
        · rename_i sandbox hsb
          rw [Option.some.injEq] at hc
          obtain ⟨h1, h2⟩ := by
            simpa using hc
          subst h1
          subst h2
          exact ⟨_, lookupA_insertA _ _ _, rfl⟩

/-- A registry with one default sandbox `s1` and no containers, for the
C8 witness. -/
def c8State : RuntimeState :=
  { sandboxes := [("s1", {})] }

/-- The state `create_container` produces from `c8State` for a config
whose image is `"foo/bar:baz"` (container id `cid`, timestamp 7). -/
def c8Created : RuntimeState :=
  { sandboxes := [("s1", { inner := {}, runningContainers := ["cid"] })]
    containers := [("cid",
      { id := "cid", podSandboxId := "s1", state := containerCreated, createdAt := 7
        config := { image := some { image := "foo/bar:baz" } }
        logPath := none, imageRef := "foo/bar:baz", volumes := [] })]
    runningContainers := []
    stopEvents := [] }

/-- C8, witness: the amended theorem applied at a concrete request whose
config carries image `"foo/bar:baz"` — the created container's
`image_ref` is that string. -/
theorem c8_create_container_witness :
    ∃ c, lookupA "cid" c8Created.containers = some c ∧ c.imageRef = "foo/bar:baz" :=
  (c8_create_container ⟨"cid", fun _ => "vid", 7, true, true⟩
      { podSandboxId := "s1"
        config := some { image := some { image := "foo/bar:baz" } }
        sandboxConfig := none } c8State).2
    { image := "foo/bar:baz" } (by rfl) "cid" c8Created (by rfl)

end Wok
